import Mathlib

/-!
Shallow embedding of the blog-flask service (src/main.py, src/db.py).

The service is a Flask CRUD app over a single table `blogposts`
(SQLAlchemy model `BlogPost` in db.py) with handlers in main.py:
`perform_healthcheck`, `get_items`, `get_item`, `create_item`,
`update_item`, `delete_item`.

Modelling decisions:
- A Python `uuid.UUID` value is a sequence of hexadecimal nibbles; its
  string form (`str(uuid)`) inserts hyphens after nibble 8, 12, 16, 20.
- Werkzeug routing is modelled on path segments: the `int` converter
  matches one or more decimal digits (Python's regex \d, hence Unicode
  Nd digits besides ASCII), the `uuid` converter the 8-4-4-4-12 hex
  pattern. When no rule matches path and method but some rule's path
  pattern does match, Werkzeug raises MethodNotAllowed (405); when no
  rule's path matches, NotFound (404).
- Exception classes matter to the healthcheck: a failing
  engine.connect() raises SQLAlchemy's OperationalError wrapper, which
  is not an instance of the psycopg2 OperationalError class named in
  the handler's first except clause.
- The database is a list of rows; `session.add` followed by `commit`
  is primary-key upsert; `session.delete` followed by `commit` removes
  the row with the entity's id.
- Exceptions are an `Except PyErr` result; a `try/except` block is a
  `match` on the result of the statements inside the `try`.
- Session lifecycle is observed through a `Trace` of counters
  (opens, closes, commits, rollbacks), threaded exactly where the
  Python code calls `Session()`, `close()`, `commit()`, `rollback()`.
- Whether the database raises on a query or a commit is an oracle
  parameter (`queryFails`, `commitResult`) of each handler.
-/

/-- A Python `uuid.UUID` value: its hexadecimal nibbles. -/
structure Uuid where
  nibbles : List (Fin 16)
deriving DecidableEq

/-- Lowercase hexadecimal digit for a nibble, as produced by `str(uuid)`. -/
def hexChar (n : Fin 16) : Char :=
  if n.val < 10 then Char.ofNat (48 + n.val) else Char.ofNat (87 + n.val)

/-- The canonical string form `str(uuid)`: lowercase hex with hyphens after
nibbles 8, 12, 16 and 20 (the 8-4-4-4-12 grouping). -/
def uuidString (u : Uuid) : String :=
  let h := u.nibbles.map hexChar
  String.mk (h.take 8 ++ '-' :: ((h.drop 8).take 4) ++ '-' :: ((h.drop 12).take 4)
    ++ '-' :: ((h.drop 16).take 4) ++ '-' :: h.drop 20)

/-- Non-ASCII decimal-digit blocks of Unicode (category Nd): besides
0-9, Python's regex \d — which Werkzeug compiles for the int
converter — matches exactly these code points. -/
def ndRanges : List (Nat × Nat) :=
  [(0x660, 0x669), (0x6F0, 0x6F9), (0x7C0, 0x7C9), (0x966, 0x96F),
   (0x9E6, 0x9EF), (0xA66, 0xA6F), (0xAE6, 0xAEF), (0xB66, 0xB6F),
   (0xBE6, 0xBEF), (0xC66, 0xC6F), (0xCE6, 0xCEF), (0xD66, 0xD6F),
   (0xDE6, 0xDEF), (0xE50, 0xE59), (0xED0, 0xED9), (0xF20, 0xF29),
   (0x1040, 0x1049), (0x1090, 0x1099), (0x17E0, 0x17E9), (0x1810, 0x1819),
   (0x1946, 0x194F), (0x19D0, 0x19D9), (0x1A80, 0x1A89), (0x1A90, 0x1A99),
   (0x1B50, 0x1B59), (0x1BB0, 0x1BB9), (0x1C40, 0x1C49), (0x1C50, 0x1C59),
   (0xA620, 0xA629), (0xA8D0, 0xA8D9), (0xA900, 0xA909), (0xA9D0, 0xA9D9),
   (0xA9F0, 0xA9F9), (0xAA50, 0xAA59), (0xABF0, 0xABF9), (0xFF10, 0xFF19),
   (0x104A0, 0x104A9), (0x10D30, 0x10D39), (0x11066, 0x1106F),
   (0x110F0, 0x110F9), (0x11136, 0x1113F), (0x111D0, 0x111D9),
   (0x112F0, 0x112F9), (0x11450, 0x11459), (0x114D0, 0x114D9),
   (0x11650, 0x11659), (0x116C0, 0x116C9), (0x11730, 0x11739),
   (0x118E0, 0x118E9), (0x11950, 0x11959), (0x11C50, 0x11C59),
   (0x11D50, 0x11D59), (0x11DA0, 0x11DA9), (0x11F50, 0x11F59),
   (0x16A60, 0x16A69), (0x16AC0, 0x16AC9), (0x16B50, 0x16B59),
   (0x1D7CE, 0x1D7FF), (0x1E140, 0x1E149), (0x1E2F0, 0x1E2F9),
   (0x1E4F0, 0x1E4F9), (0x1E950, 0x1E959), (0x1FBF0, 0x1FBF9)]

/-- Python's regex character class \d: ASCII digits plus the other
Unicode decimal digits. -/
def isDecimalDigit (c : Char) : Bool :=
  c.isDigit ||
    ndRanges.any (fun r => decide (r.1 ≤ c.toNat) && decide (c.toNat ≤ r.2))

/-- Werkzeug `int` route converter (regex \d+): the segment must be one
or more decimal digits. -/
def isIntSegment (s : String) : Bool :=
  !s.data.isEmpty && s.data.all isDecimalDigit

/-- Hexadecimal character class of Werkzeug's `uuid` converter regex. -/
def isHexChar (c : Char) : Bool :=
  c.isDigit || ('a' ≤ c && c ≤ 'f') || ('A' ≤ c && c ≤ 'F')

/-- Character check at position `i` of a candidate uuid segment:
hyphens at positions 8, 13, 18, 23, hex digits elsewhere. -/
def uuidCharOk (l : List Char) (i : Nat) : Bool :=
  if i = 8 || i = 13 || i = 18 || i = 23 then l.getD i ' ' == '-'
  else isHexChar (l.getD i ' ')

/-- Werkzeug `uuid` route converter: the 8-4-4-4-12 hexadecimal pattern. -/
def isUuidSegment (s : String) : Bool :=
  s.data.length == 36 && (List.range 36).all (uuidCharOk s.data)

/-- Value of a hexadecimal character (lowercase or uppercase). -/
def hexVal (c : Char) : Fin 16 :=
  if c.isDigit then ⟨(c.toNat - 48) % 16, Nat.mod_lt _ (by decide)⟩
  else ⟨(c.toNat - 87) % 16, Nat.mod_lt _ (by decide)⟩

/-- Werkzeug's `uuid` converter hands `uuid.UUID(segment)` to the handler:
drop the hyphens, lowercase, read the nibbles. -/
def parseUuid (s : String) : Uuid :=
  ⟨(s.toLower.data.filter (fun c => c ≠ '-')).map hexVal⟩

/-- Row of the `blogposts` table (model `BlogPost` in db.py).
`title` and `description` are nullable text columns
(`Column(String)`, `Column(String, nullable=True)`);
`created_at` is the creation timestamp. -/
structure BlogPost where
  id : Uuid
  title : Option String
  description : Option String
  created_at : Nat
deriving DecidableEq

/-- The persisted state: the rows of the `blogposts` table. -/
abbrev DB := List BlogPost

/-- JSON values, for request and response bodies. -/
inductive Json where
  | nul
  | str (s : String)
  | num (n : Nat)
  | arr (items : List Json)
  | obj (fields : List (String × Json))

/-- Serialization of a nullable text column. -/
def optStr : Option String → Json
  | none => Json.nul
  | some s => Json.str s

/-- Field lookup in a JSON object. -/
def jsonLookup (j : Json) (k : String) : Option Json :=
  match j with
  | .obj fields => (fields.find? (fun kv => kv.fst == k)).map Prod.snd
  | _ => none

/-- BlogPost.to_dict from db.py. -/
def BlogPost.to_dict (p : BlogPost) : Json :=
  .obj [("id", .str (uuidString p.id)),
        ("title", optStr p.title),
        ("description", optStr p.description),
        ("created_at", .num p.created_at)]

/-- session.query(BlogPost).get(item_id): the row whose primary key is
`item_id`, if any. -/
def findById (db : DB) (i : Uuid) : Option BlogPost :=
  match db with
  | [] => none
  | p :: rest => if p.id = i then some p else findById rest i

/-- Effect of session.add(post) followed by a successful commit:
primary-key upsert (insert a new row, or overwrite the row with the
same id). -/
def upsertPost (post : BlogPost) : DB → DB
  | [] => [post]
  | p :: rest => if p.id = post.id then post :: rest else p :: upsertPost post rest

/-- Effect of session.delete(post) followed by a successful commit:
remove the row with the entity's id. -/
def removeById (i : Uuid) (db : DB) : DB :=
  db.filter (fun p => !(decide (p.id = i)))

/-- Exceptions raised by the embedded code. -/
inductive PyErr where
  | keyError (k : String)
  | dbError (msg : String)
deriving DecidableEq

/-- Session lifecycle counters: how many times `Session()`, `close()`,
`commit()` and `rollback()` ran. -/
structure Trace where
  opens : Nat
  closes : Nat
  commits : Nat
  rollbacks : Nat
deriving DecidableEq

def Trace.empty : Trace := ⟨0, 0, 0, 0⟩

/-- Effect of `Session()`. -/
def sessionOpen (t : Trace) : Trace :=
  { t with opens := t.opens + 1 }

/-- Effect of `session.close()`. -/
def sessionClose (t : Trace) : Trace :=
  { t with closes := t.closes + 1 }

/-- Effect of a successful `session.commit()`. -/
def sessionCommit (t : Trace) : Trace :=
  { t with commits := t.commits + 1 }

/-- Effect of `session.rollback()`. -/
def sessionRollback (t : Trace) : Trace :=
  { t with rollbacks := t.rollbacks + 1 }

/-- JSON request body of create/update: presence and value of the
`name` and `description` keys. -/
structure Body where
  name : Option String
  description : Option String
deriving DecidableEq

/-- HTTP response: status code and JSON body. -/
structure Response where
  status : Nat
  body : Json

/-- Response of `abort(500)`. -/
def resp500 : Response := ⟨500, .nul⟩

/-- A 404 with a JSON error field, as the handlers build it. -/
def resp404 (msg : String) : Response := ⟨404, .obj [("error", .str msg)]⟩

/-- A success response with a JSON message field. -/
def respMsg (status : Nat) (msg : String) : Response :=
  ⟨status, .obj [("message", .str msg)]⟩

/-- Result of `session.query(BlogPost).all()`: every row, or a raised
database exception when the oracle `queryFails` is set. -/
def queryAll (db : DB) (queryFails : Bool) : Except PyErr (List BlogPost) :=
  if queryFails then .error (.dbError "query") else .ok db

/-- Result of `session.query(BlogPost).get(item_id)` for a uuid key. -/
def queryGet (db : DB) (item_id : Uuid) (queryFails : Bool) :
    Except PyErr (Option BlogPost) :=
  if queryFails then .error (.dbError "query") else .ok (findById db item_id)

/-- Result of `session.query(BlogPost).get(item_id)` for the integer key
of the delete route: the primary-key column is UUID-typed, so comparing
it against an integer parameter makes PostgreSQL raise a type error,
which surfaces in the handler as a database exception (caught by the
blanket except and turned into 500). -/
def queryGetInt (db : DB) (item_id : Nat) (queryFails : Bool) :
    Except PyErr (Option BlogPost) :=
  let _ := db
  let _ := item_id
  let _ := queryFails
  .error (.dbError "operator does not exist: uuid = integer")

/-- Python `body[key]`: the value when the key is present, `KeyError`
otherwise. -/
def getKey (field : Option String) (k : String) : Except PyErr String :=
  match field with
  | some v => .ok v
  | none => .error (.keyError k)

/-- BlogPost.save from db.py: open a session, add and commit inside a
`try`, roll back and re-raise the caught exception in the `except`,
close the session in the `finally`. Returns the propagated result, the
resulting table and the trace. `commitResult` is the database's answer
to the commit. -/
def BlogPost.save (post : BlogPost) (db : DB) (commitResult : Except PyErr Unit)
    (t : Trace) : Except PyErr Unit × DB × Trace :=
  let t1 := sessionOpen t
  match commitResult with
  | .ok _ => (.ok (), upsertPost post db, sessionClose (sessionCommit t1))
  | .error e => (.error e, db, sessionClose (sessionRollback t1))

/-- BlogPost.delete from db.py: same shape as save, with
session.delete(self) in place of session.add(self). -/
def BlogPost.delete (post : BlogPost) (db : DB) (commitResult : Except PyErr Unit)
    (t : Trace) : Except PyErr Unit × DB × Trace :=
  let t1 := sessionOpen t
  match commitResult with
  | .ok _ => (.ok (), removeById post.id db, sessionClose (sessionCommit t1))
  | .error e => (.error e, db, sessionClose (sessionRollback t1))

/-- Exception classes relevant to the healthcheck's try block. A failing
engine.connect() raises sqlalchemy.exc.OperationalError, SQLAlchemy's
wrapper around the driver error; that wrapper is not an instance of
psycopg2.OperationalError, the class main.py imports and names in the
first except clause. -/
inductive HealthExc where
  | sqlalchemyOperationalError
  | psycopg2OperationalError
  | otherException
deriving DecidableEq

/-- The isinstance test performed by the first except clause of
perform_healthcheck (except OperationalError, with psycopg2's class):
SQLAlchemy's wrapper does not subclass it. -/
def isPsycopg2OperationalError : HealthExc → Bool
  | .psycopg2OperationalError => true
  | _ => false

/-- The exception a database connection failure produces inside the try
block: SQLAlchemy wraps the driver failure in its own OperationalError
class. -/
def connectionFailureExc : HealthExc := .sqlalchemyOperationalError

/-- perform_healthcheck from main.py: 200 on success (`conn = none`,
no exception raised); otherwise the first except catches exactly
instances of psycopg2.OperationalError and raises ServiceUnavailable
(503), and every other exception falls to the generic except clause
and InternalServerError (500). -/
def perform_healthcheck (conn : Option HealthExc) : Response :=
  match conn with
  | none => ⟨200, .obj [("status", .str "ok"),
      ("message", .str "Server and database are running smoothly")]⟩
  | some e => if isPsycopg2OperationalError e then ⟨503, .nul⟩ else ⟨500, .nul⟩

/-- get_items from main.py. Inside the `try`: open a session, run the
query, close the session, return 200 with the serialized rows; the
`except` turns any raised exception into abort(500). When the query
raises, the `session.close()` line is skipped. -/
def get_items (db : DB) (queryFails : Bool) : Response × Trace :=
  let t := sessionOpen Trace.empty
  match queryAll db queryFails with
  | .error _ => (resp500, t)
  | .ok items =>
      let t := sessionClose t
      (⟨200, .arr (items.map BlogPost.to_dict)⟩, t)

/-- get_item from main.py. Inside the `try`: open a session, get the row,
close the session, then 404 when the row is missing, else 200 with
to_dict; the `except` turns any raised exception into abort(500). -/
def get_item (db : DB) (item_id : Uuid) (queryFails : Bool) : Response × Trace :=
  let t := sessionOpen Trace.empty
  match queryGet db item_id queryFails with
  | .error _ => (resp500, t)
  | .ok none =>
      let t := sessionClose t
      (resp404 "Item not found", t)
  | .ok (some item) =>
      let t := sessionClose t
      (⟨200, item.to_dict⟩, t)

/-- create_item from main.py. Inside the `try`: build
BlogPost(title=new_item["name"], description=new_item["description"])
(either subscript may raise KeyError), call item.save(), return 201;
the `except` turns any raised exception into abort(500). The server
picks the fresh `id` (uuid4) and `created_at` (datetime.now) defaults,
passed here as `newId` and `now`. -/
def create_item (newId : Uuid) (now : Nat) (body : Body) (db : DB)
    (commitResult : Except PyErr Unit) : Response × DB × Trace :=
  match getKey body.name "name" with
  | .error _ => (resp500, db, Trace.empty)
  | .ok name =>
  match getKey body.description "description" with
  | .error _ => (resp500, db, Trace.empty)
  | .ok desc =>
      let item : BlogPost :=
        { id := newId, title := some name, description := some desc, created_at := now }
      match BlogPost.save item db commitResult Trace.empty with
      | (.error _, db', t') => (resp500, db', t')
      | (.ok _, db', t') => (respMsg 201 "Item created successfully", db', t')

/-- update_item from main.py. Inside the `try`: open a session, get the
row, close the session, 404 when missing; otherwise overwrite `title`
and `description` from the body (either subscript may raise KeyError)
and call item.save(); the `except` turns any raised exception into
abort(500). When the query raises, the `session.close()` line is
skipped. -/
def update_item (db : DB) (item_id : Uuid) (body : Body) (queryFails : Bool)
    (commitResult : Except PyErr Unit) : Response × DB × Trace :=
  let t := sessionOpen Trace.empty
  match queryGet db item_id queryFails with
  | .error _ => (resp500, db, t)
  | .ok none =>
      let t := sessionClose t
      (resp404 "Item not found", db, t)
  | .ok (some item) =>
      let t := sessionClose t
      match getKey body.name "name" with
      | .error _ => (resp500, db, t)
      | .ok name =>
      match getKey body.description "description" with
      | .error _ => (resp500, db, t)
      | .ok desc =>
          let item' := { item with title := some name, description := some desc }
          match BlogPost.save item' db commitResult t with
          | (.error _, db', t') => (resp500, db', t')
          | (.ok _, db', t') => (respMsg 200 "Item updated successfully", db', t')

/-- delete_item from main.py. Inside the `try`: open a session, get the
row by the integer path parameter, close the session, 404 when missing;
otherwise item.delete() and 200; the `except` turns any raised
exception into abort(500). -/
def delete_item (db : DB) (item_id : Nat) (queryFails : Bool)
    (commitResult : Except PyErr Unit) : Response × DB × Trace :=
  let t := sessionOpen Trace.empty
  match queryGetInt db item_id queryFails with
  | .error _ => (resp500, db, t)
  | .ok none =>
      let t := sessionClose t
      (resp404 "Item not found", db, t)
  | .ok (some item) =>
      let t := sessionClose t
      match BlogPost.delete item db commitResult t with
      | (.error _, db', t') => (resp500, db', t')
      | (.ok _, db', t') => (respMsg 200 "Item deleted successfully", db', t')

/-- HTTP methods used by the app. -/
inductive Method where
  | GET
  | POST
  | PUT
  | DELETE
deriving DecidableEq

/-- The app's routes, with the raw matched path segment where the rule
has a converter. -/
inductive Route where
  | healthcheck
  | items_list
  | items_get (seg : String)
  | items_create
  | items_update (seg : String)
  | items_delete (seg : String)

/-- The rule matching both path and method, for the rules registered in
main.py: GET /healthcheck, GET /items, GET /items/<uuid:item_id>,
POST /items, PUT /items/<uuid:item_id>, DELETE /items/<int:item_id>. -/
def routeFor (m : Method) (segs : List String) : Option Route :=
  match m, segs with
  | .GET, ["healthcheck"] => some .healthcheck
  | .GET, ["items"] => some .items_list
  | .GET, ["items", s] => if isUuidSegment s then some (.items_get s) else none
  | .POST, ["items"] => some .items_create
  | .PUT, ["items", s] => if isUuidSegment s then some (.items_update s) else none
  | .DELETE, ["items", s] => if isIntSegment s then some (.items_delete s) else none
  | _, _ => none

/-- Whether some registered rule's path pattern matches the segments,
regardless of method — Werkzeug's criterion for raising MethodNotAllowed
rather than NotFound when no rule matches path and method together. -/
def pathMatchesAnyRule (segs : List String) : Bool :=
  match segs with
  | ["healthcheck"] => true
  | ["items"] => true
  | ["items", s] => isUuidSegment s || isIntSegment s
  | _ => false

/-- Result of Werkzeug routing: a matched rule, MethodNotAllowed (405,
some rule's path matches under another method only), or NotFound (404). -/
inductive RouteResult where
  | matched (r : Route)
  | methodNotAllowed
  | noMatch

/-- Werkzeug routing: a rule matching path and method dispatches; with
no such rule, a path-only match raises MethodNotAllowed and otherwise
NotFound. -/
def matchRoute (m : Method) (segs : List String) : RouteResult :=
  match routeFor m segs with
  | some r => .matched r
  | none => if pathMatchesAnyRule segs then .methodNotAllowed else .noMatch

/-- Ambient state and oracles of one request: the table, the request
body, the server-generated defaults, and the database's behavior. -/
structure World where
  db : DB
  body : Body
  newId : Uuid
  now : Nat
  queryFails : Bool
  commitResult : Except PyErr Unit
  connOutcome : Option HealthExc

/-- Result of dispatching one request: the response, the resulting
table, whether a handler body ran, and the session trace. -/
structure Outcome where
  response : Response
  db : DB
  handlerReached : Bool
  trace : Trace

/-- Request dispatch: route the method and path, run the matched
handler, or answer Werkzeug's 404 (no path matches) or 405 (a path
matches under another method only) without touching the database. -/
def dispatch (w : World) (m : Method) (segs : List String) : Outcome :=
  match matchRoute m segs with
  | .noMatch => ⟨⟨404, .nul⟩, w.db, false, Trace.empty⟩
  | .methodNotAllowed => ⟨⟨405, .nul⟩, w.db, false, Trace.empty⟩
  | .matched .healthcheck =>
      ⟨perform_healthcheck w.connOutcome, w.db, true, Trace.empty⟩
  | .matched .items_list =>
      let r := get_items w.db w.queryFails
      ⟨r.1, w.db, true, r.2⟩
  | .matched (.items_get s) =>
      let r := get_item w.db (parseUuid s) w.queryFails
      ⟨r.1, w.db, true, r.2⟩
  | .matched .items_create =>
      let r := create_item w.newId w.now w.body w.db w.commitResult
      ⟨r.1, r.2.1, true, r.2.2⟩
  | .matched (.items_update s) =>
      let r := update_item w.db (parseUuid s) w.body w.queryFails w.commitResult
      ⟨r.1, r.2.1, true, r.2.2⟩
  | .matched (.items_delete s) =>
      let r := delete_item w.db ((s.toNat?).getD 0) w.queryFails w.commitResult
      ⟨r.1, r.2.1, true, r.2.2⟩

/-- Outcome of a request rejected at routing: a 4xx response (Werkzeug's
404 or 405), the handler body never run, no session opened, and the
table untouched. -/
def rejectedAtRouting (o : Outcome) (db : DB) : Prop :=
  (o.response.status = 404 ∨ o.response.status = 405) ∧
  400 ≤ o.response.status ∧ o.response.status < 500 ∧
  o.handlerReached = false ∧ o.trace = Trace.empty ∧ o.db = db

/-- Python truthiness of `os.environ.get(...)`: false for an unset
variable (None) and for the empty string. -/
def truthy : Option String → Bool
  | none => false
  | some s => !s.isEmpty

/-- The error message of the ValueError raised in db.py (the two
adjacent string literals concatenate without a space). -/
def envErrorMsg : String :=
  "Environment variables POSTGRES_USER, POSTGRES_PASSWORD, andPOSTGRES_DB must be set."

/-- Module initialization of db.py: raise ValueError unless
all([postgres_user, postgres_password, postgres_db]) is truthy,
otherwise proceed to create_engine with the connection URL
(an unset host renders as the string None, as in the f-string). -/
def db_module_init (user password host dbname : Option String) :
    Except String String :=
  if !(truthy user && truthy password && truthy dbname) then
    .error envErrorMsg
  else
    .ok ("postgresql://" ++ (user.getD "None") ++ ":" ++ (password.getD "None")
      ++ "@" ++ (host.getD "None") ++ ":5432/" ++ (dbname.getD "None"))

/-! ## Helper lemmas -/

/-- The string form of a uuid always contains a hyphen, so it never
satisfies the `int` route converter. -/
theorem isIntSegment_uuidString (u : Uuid) : isIntSegment (uuidString u) = false := by
  have hd : isDecimalDigit '-' = false := by decide
  simp [isIntSegment, uuidString, List.all_append, List.all_cons, hd]

/-- When no rule's path matches, Flask answers 404 and no handler runs. -/
theorem dispatch_noMatch (w : World) (m : Method) (segs : List String)
    (h : matchRoute m segs = .noMatch) :
    dispatch w m segs = ⟨⟨404, .nul⟩, w.db, false, Trace.empty⟩ := by
  simp [dispatch, h]

/-- When a rule's path matches under another method only, Flask answers
405 and no handler runs. -/
theorem dispatch_methodNotAllowed (w : World) (m : Method) (segs : List String)
    (h : matchRoute m segs = .methodNotAllowed) :
    dispatch w m segs = ⟨⟨405, .nul⟩, w.db, false, Trace.empty⟩ := by
  simp [dispatch, h]

/-- Looking up the id of an upserted row finds exactly that row. -/
theorem findById_upsertPost (post : BlogPost) (db : DB) :
    findById (upsertPost post db) post.id = some post := by
  induction db with
  | nil => simp [upsertPost, findById]
  | cons p rest ih =>
      by_cases h : p.id = post.id
      · simp [upsertPost, findById, h]
      · simp [upsertPost, findById, h, ih]

/-- A row found by id carries that id. -/
theorem findById_id (db : DB) (i : Uuid) (p : BlogPost)
    (h : findById db i = some p) : p.id = i := by
  induction db with
  | nil => simp [findById] at h
  | cons q rest ih =>
      by_cases hq : q.id = i
      · simp [findById, hq] at h
        subst h
        exact hq
      · simp [findById, hq] at h
        exact ih h

/-! ## Concrete fixtures for witnesses -/

/-- A concrete uuid (all nibbles zero). -/
def u0 : Uuid := ⟨List.replicate 32 0⟩

/-- A concrete persisted row. -/
def post0 : BlogPost := ⟨u0, some "t0", none, 5⟩

/-- A concrete request world over a one-row table. -/
def w0 : World := ⟨[post0], ⟨none, none⟩, u0, 0, false, .ok (), none⟩

/-! ## Claims -/

/-- Claim C1: the only DELETE rule uses the `int` converter while ids
are server-generated uuids, and the string form of a uuid always
contains hyphens, so a DELETE for such an id never matches the delete
route: routing rejects the request — 405 whenever the segment fits the
uuid rules' pattern, as the string form of every well-formed uuid does,
else 404 — the delete handler never runs and the table is unchanged:
the delete endpoint never deletes such a row. -/
theorem delete_route_never_matches_uuid (u : Uuid) (w : World) :
    routeFor .DELETE ["items", uuidString u] = none ∧
    (dispatch w .DELETE ["items", uuidString u]).handlerReached = false ∧
    (dispatch w .DELETE ["items", uuidString u]).db = w.db ∧
    ((dispatch w .DELETE ["items", uuidString u]).response.status = 404 ∨
     (dispatch w .DELETE ["items", uuidString u]).response.status = 405) ∧
    (isUuidSegment (uuidString u) = true →
      (dispatch w .DELETE ["items", uuidString u]).response.status = 405) := by
  have hint : isIntSegment (uuidString u) = false := isIntSegment_uuidString u
  have hroute : routeFor .DELETE ["items", uuidString u] = none := by
    simp [routeFor, hint]
  cases hU : isUuidSegment (uuidString u) with
  | true =>
      have hm : matchRoute .DELETE ["items", uuidString u] = .methodNotAllowed := by
        simp [matchRoute, hroute, pathMatchesAnyRule, hU]
      rw [dispatch_methodNotAllowed w _ _ hm]
      exact ⟨hroute, rfl, rfl, Or.inr rfl, fun _ => rfl⟩
  | false =>
      have hm : matchRoute .DELETE ["items", uuidString u] = .noMatch := by
        simp [matchRoute, hroute, pathMatchesAnyRule, hU, hint]
      rw [dispatch_noMatch w _ _ hm]
      exact ⟨hroute, rfl, rfl, Or.inl rfl,
        fun hcon => absurd hcon (by simp [hU])⟩

/-- Witness for claim C1: the all-zero uuid's string form fits the uuid
rules' pattern, and its DELETE is answered 405 by routing. -/
theorem delete_route_never_matches_uuid_witness :
    isUuidSegment (uuidString u0) = true ∧
    (dispatch w0 .DELETE ["items", uuidString u0]).response.status = 405 :=
  ⟨by decide, (delete_route_never_matches_uuid u0 w0).2.2.2.2 (by decide)⟩

/-- Claim C7: the healthcheck answers 200 with the status message on
success, and 503 exactly for exceptions that are instances of
psycopg2.OperationalError — but a database connection failure surfaces
as SQLAlchemy's wrapper OperationalError, which is no such instance, so
the connection-failure input falls to the generic except clause and is
answered 500, never the advertised 503. -/
theorem healthcheck_connection_failure_gives_500 :
    (perform_healthcheck none).status = 200 ∧
    jsonLookup (perform_healthcheck none).body "status" = some (.str "ok") ∧
    jsonLookup (perform_healthcheck none).body "message"
      = some (.str "Server and database are running smoothly") ∧
    isPsycopg2OperationalError connectionFailureExc = false ∧
    (perform_healthcheck (some connectionFailureExc)).status = 500 ∧
    (∀ e : HealthExc, ((perform_healthcheck (some e)).status = 503 ↔
      isPsycopg2OperationalError e = true)) := by
  refine ⟨rfl, rfl, rfl, rfl, rfl, ?_⟩
  intro e
  cases e <;> simp [perform_healthcheck, isPsycopg2OperationalError]

/-- Claim C9 counterexample: with POSTGRES_USER set (to the empty
string) and the other two variables set to nonempty values — so all
three are set — module initialization still raises the ValueError
instead of proceeding to engine creation. -/
theorem env_all_set_still_raises :
    (some "" : Option String).isSome = true ∧
    (some "pw" : Option String).isSome = true ∧
    (some "blog" : Option String).isSome = true ∧
    db_module_init (some "") (some "pw") none (some "blog") = .error envErrorMsg :=
  ⟨rfl, rfl, rfl, rfl⟩

/-- Claim C9 amended: startup fails fast when any of user, password or
database name is unset or empty (Python truthiness of the env values),
and proceeds to engine creation exactly when all three are nonempty. -/
theorem env_check_fails_fast (user password host dbname : Option String) :
    (user = none ∨ password = none ∨ dbname = none →
      db_module_init user password host dbname = .error envErrorMsg) ∧
    ((db_module_init user password host dbname).isOk = true ↔
      (truthy user && truthy password && truthy dbname) = true) := by
  constructor
  · intro h
    rcases h with h | h | h <;> subst h <;> simp [db_module_init, truthy]
  · cases h : (truthy user && truthy password && truthy dbname) with
    | true => simp [db_module_init, h, Except.isOk, Except.toBool]
    | false => simp [db_module_init, h, Except.isOk, Except.toBool]

/-- Witness for claim C9: the fail-fast clause at an unset user, and
the proceed clause at three nonempty values. -/
theorem env_check_fails_fast_witness :
    db_module_init none (some "pw") none (some "blog") = .error envErrorMsg ∧
    ((db_module_init (some "u") (some "pw") none (some "blog")).isOk = true ↔
      (truthy (some "u") && truthy (some "pw") && truthy (some "blog")) = true) :=
  ⟨(env_check_fails_fast none (some "pw") none (some "blog")).1 (Or.inl rfl),
   (env_check_fails_fast (some "u") (some "pw") none (some "blog")).2⟩

/-- Claim C8: a Get or Update request whose id segment fails the uuid
pattern, and a Delete request whose id segment fails the digit pattern,
are rejected at routing with a 4xx — Werkzeug's 404 when no rule's path
matches, 405 when a rule registered for another method path-matches the
segment — and never 500: the handler body never runs, no session is
opened and the table is untouched. -/
theorem invalid_id_rejected_at_routing (w : World) (s : String) :
    (isUuidSegment s = false →
       rejectedAtRouting (dispatch w .GET ["items", s]) w.db ∧
       rejectedAtRouting (dispatch w .PUT ["items", s]) w.db) ∧
    (isIntSegment s = false →
       rejectedAtRouting (dispatch w .DELETE ["items", s]) w.db) := by
  have h404 : ∀ m segs, matchRoute m segs = .noMatch →
      rejectedAtRouting (dispatch w m segs) w.db := by
    intro m segs h
    rw [dispatch_noMatch w m segs h]
    exact ⟨Or.inl rfl, by show 400 ≤ 404; decide, by show 404 < 500; decide,
      rfl, rfl, rfl⟩
  have h405 : ∀ m segs, matchRoute m segs = .methodNotAllowed →
      rejectedAtRouting (dispatch w m segs) w.db := by
    intro m segs h
    rw [dispatch_methodNotAllowed w m segs h]
    exact ⟨Or.inr rfl, by show 400 ≤ 405; decide, by show 405 < 500; decide,
      rfl, rfl, rfl⟩
  constructor
  · intro hU
    cases hI : isIntSegment s with
    | true =>
        refine ⟨h405 _ _ ?_, h405 _ _ ?_⟩ <;>
          simp [matchRoute, routeFor, pathMatchesAnyRule, hU, hI]
    | false =>
        refine ⟨h404 _ _ ?_, h404 _ _ ?_⟩ <;>
          simp [matchRoute, routeFor, pathMatchesAnyRule, hU, hI]
  · intro hI
    cases hU : isUuidSegment s with
    | true =>
        refine h405 _ _ ?_
        simp [matchRoute, routeFor, pathMatchesAnyRule, hU, hI]
    | false =>
        refine h404 _ _ ?_
        simp [matchRoute, routeFor, pathMatchesAnyRule, hU, hI]

/-- Witness for claim C8: the segment nope fits neither converter, so
GET, PUT and DELETE are all rejected at routing (there with 404); the
segment 123 fails the uuid converter while path-matching the DELETE int
rule, so its GET is rejected too (there with 405). -/
theorem invalid_id_rejected_at_routing_witness :
    (rejectedAtRouting (dispatch w0 .GET ["items", "nope"]) w0.db ∧
     rejectedAtRouting (dispatch w0 .PUT ["items", "nope"]) w0.db) ∧
    rejectedAtRouting (dispatch w0 .DELETE ["items", "nope"]) w0.db ∧
    rejectedAtRouting (dispatch w0 .GET ["items", "123"]) w0.db :=
  ⟨(invalid_id_rejected_at_routing w0 "nope").1 (by decide),
   (invalid_id_rejected_at_routing w0 "nope").2 (by decide),
   ((invalid_id_rejected_at_routing w0 "123").1 (by decide)).1⟩

/-- Claim C2 counterexample: get_items with a raising query returns 500
after opening a session that is never closed — the session.close() line
sits inside the try before the raise point, and the except block does
not close it. -/
theorem session_leak_on_query_failure :
    (get_items [] true).1.status = 500 ∧
    (get_items [] true).2.opens = 1 ∧
    (get_items [] true).2.closes = 0 :=
  ⟨rfl, rfl, rfl⟩

/-- Claim C2 amended: the get_items, get_item and update_item handlers
close every session they open on all paths where the initial query does
not raise (success, not-found, missing body key, failing save); when
the query itself raises, the handler returns via the except block with
the session it opened left unclosed. -/
theorem session_release_paths (db : DB) (item_id : Uuid) (body : Body)
    (cr : Except PyErr Unit) :
    ((get_items db false).2.closes = (get_items db false).2.opens) ∧
    ((get_item db item_id false).2.closes = (get_item db item_id false).2.opens) ∧
    ((update_item db item_id body false cr).2.2.closes
        = (update_item db item_id body false cr).2.2.opens) ∧
    ((get_items db true).2.opens = 1 ∧ (get_items db true).2.closes = 0) ∧
    ((get_item db item_id true).2.opens = 1 ∧ (get_item db item_id true).2.closes = 0) ∧
    ((update_item db item_id body true cr).2.2.opens = 1 ∧
     (update_item db item_id body true cr).2.2.closes = 0) := by
  refine ⟨rfl, ?_, ?_, ⟨rfl, rfl⟩, ⟨rfl, rfl⟩, ⟨rfl, rfl⟩⟩
  · cases h : findById db item_id <;>
      simp [get_item, queryGet, h, sessionOpen, sessionClose, Trace.empty]
  · cases h : findById db item_id with
    | none =>
        simp [update_item, queryGet, h, sessionOpen, sessionClose, Trace.empty]
    | some item =>
        cases hn : body.name with
        | none =>
            simp [update_item, queryGet, h, hn, getKey, sessionOpen, sessionClose,
              Trace.empty]
        | some name =>
            cases hd : body.description with
            | none =>
                simp [update_item, queryGet, h, hn, hd, getKey, sessionOpen,
                  sessionClose, Trace.empty]
            | some desc =>
                cases cr with
                | ok u =>
                    simp [update_item, queryGet, h, hn, hd, getKey, BlogPost.save,
                      sessionOpen, sessionClose, sessionCommit, Trace.empty]
                | error e =>
                    simp [update_item, queryGet, h, hn, hd, getKey, BlogPost.save,
                      sessionOpen, sessionClose, sessionRollback, Trace.empty]

/-- Claim C3 counterexample: a create request whose body lacks the
required name key gets status 500 from create_item — a server error,
not a request-level 4xx. -/
theorem missing_name_is_500_not_4xx :
    (create_item u0 0 ⟨none, some "B"⟩ [] (.ok ())).1.status = 500 ∧
    ¬(400 ≤ (create_item u0 0 ⟨none, some "B"⟩ [] (.ok ())).1.status ∧
      (create_item u0 0 ⟨none, some "B"⟩ [] (.ok ())).1.status < 500) :=
  ⟨rfl, by decide⟩

/-- Claim C3 amended: a create or update body missing the required name
key takes the handler's generic except-path: the response is the
abort(500) server error, not a 4xx validation error, and the table is
unchanged. -/
theorem missing_name_returns_500 (newId : Uuid) (now : Nat) (db : DB)
    (body : Body) (cr : Except PyErr Unit) (item_id : Uuid) (item : BlogPost)
    (hname : body.name = none) (hfind : findById db item_id = some item) :
    (create_item newId now body db cr).1 = resp500 ∧
    (create_item newId now body db cr).2.1 = db ∧
    (update_item db item_id body false cr).1 = resp500 ∧
    (update_item db item_id body false cr).2.1 = db := by
  cases body with
  | mk n d =>
      cases hname
      exact ⟨rfl, rfl,
        by simp [update_item, queryGet, hfind, getKey],
        by simp [update_item, queryGet, hfind, getKey]⟩

/-- Witness for claim C3: concrete bodies missing the name key against
a one-row table. -/
theorem missing_name_returns_500_witness :
    (create_item u0 7 ⟨none, some "B"⟩ [post0] (.ok ())).1 = resp500 ∧
    (create_item u0 7 ⟨none, some "B"⟩ [post0] (.ok ())).2.1 = [post0] ∧
    (update_item [post0] u0 ⟨none, some "B"⟩ false (.ok ())).1 = resp500 ∧
    (update_item [post0] u0 ⟨none, some "B"⟩ false (.ok ())).2.1 = [post0] :=
  missing_name_returns_500 u0 7 [post0] ⟨none, some "B"⟩ (.ok ()) u0 post0 rfl
    (by decide)

/-- Claim C4: BlogPost.save commits the change on success (the table
holds the upserted row); on a failing commit it rolls back — the table
is unchanged — and propagates the very exception the commit raised; in
every case the session it opened is closed after the call.
BlogPost.delete follows the same discipline. -/
theorem save_delete_commit_rollback_release (post : BlogPost) (db : DB) (t : Trace) :
    ((BlogPost.save post db (.ok ()) t).1 = .ok () ∧
     (BlogPost.save post db (.ok ()) t).2.1 = upsertPost post db ∧
     (BlogPost.save post db (.ok ()) t).2.2.commits = t.commits + 1) ∧
    (∀ e : PyErr,
     (BlogPost.save post db (.error e) t).1 = .error e ∧
     (BlogPost.save post db (.error e) t).2.1 = db ∧
     (BlogPost.save post db (.error e) t).2.2.rollbacks = t.rollbacks + 1) ∧
    (∀ cr : Except PyErr Unit,
     (BlogPost.save post db cr t).2.2.opens = t.opens + 1 ∧
     (BlogPost.save post db cr t).2.2.closes = t.closes + 1) ∧
    ((BlogPost.delete post db (.ok ()) t).1 = .ok () ∧
     (BlogPost.delete post db (.ok ()) t).2.1 = removeById post.id db ∧
     (BlogPost.delete post db (.ok ()) t).2.2.commits = t.commits + 1) ∧
    (∀ e : PyErr,
     (BlogPost.delete post db (.error e) t).1 = .error e ∧
     (BlogPost.delete post db (.error e) t).2.1 = db ∧
     (BlogPost.delete post db (.error e) t).2.2.rollbacks = t.rollbacks + 1) ∧
    (∀ cr : Except PyErr Unit,
     (BlogPost.delete post db cr t).2.2.opens = t.opens + 1 ∧
     (BlogPost.delete post db cr t).2.2.closes = t.closes + 1) := by
  refine ⟨⟨rfl, rfl, rfl⟩, fun e => ⟨rfl, rfl, rfl⟩, fun cr => ?_,
    ⟨rfl, rfl, rfl⟩, fun e => ⟨rfl, rfl, rfl⟩, fun cr => ?_⟩ <;>
    cases cr <;> exact ⟨rfl, rfl⟩

/-- Claim C5: round trip — creating with body name A, description B
answers 201, and fetching the fresh id afterwards answers 200 with a
JSON object whose title is A and whose description is B: the wire field
name is stored in the title column. -/
theorem create_then_get_roundtrip (db : DB) (newId : Uuid) (now : Nat) :
    (create_item newId now ⟨some "A", some "B"⟩ db (.ok ())).1.status = 201 ∧
    (get_item (create_item newId now ⟨some "A", some "B"⟩ db (.ok ())).2.1
      newId false).1.status = 200 ∧
    jsonLookup (get_item (create_item newId now ⟨some "A", some "B"⟩ db (.ok ())).2.1
      newId false).1.body "title" = some (.str "A") ∧
    jsonLookup (get_item (create_item newId now ⟨some "A", some "B"⟩ db (.ok ())).2.1
      newId false).1.body "description" = some (.str "B") := by
  have hpost : findById
      (create_item newId now ⟨some "A", some "B"⟩ db (.ok ())).2.1 newId
      = some ⟨newId, some "A", some "B", now⟩ :=
    findById_upsertPost ⟨newId, some "A", some "B", now⟩ db
  refine ⟨rfl, ?_, ?_, ?_⟩ <;>
    simp [get_item, queryGet, hpost, BlogPost.to_dict, jsonLookup, optStr]

/-- Claim C6: a successful update rewrites only title and description —
the row found at the id is replaced by one that keeps its id and
created_at and takes the body's name and description. -/
theorem update_preserves_id_created_at (db : DB) (item_id : Uuid)
    (item : BlogPost) (name desc : String)
    (hfind : findById db item_id = some item) :
    (update_item db item_id ⟨some name, some desc⟩ false (.ok ())).1.status = 200 ∧
    findById (update_item db item_id ⟨some name, some desc⟩ false (.ok ())).2.1
      item_id = some { item with title := some name, description := some desc } ∧
    ({ item with title := some name, description := some desc } : BlogPost).id
      = item.id ∧
    ({ item with title := some name, description := some desc } : BlogPost).created_at
      = item.created_at := by
  have hid : item.id = item_id := findById_id db item_id item hfind
  have h2 : (update_item db item_id ⟨some name, some desc⟩ false (.ok ())).2.1
      = upsertPost { item with title := some name, description := some desc } db := by
    simp [update_item, queryGet, hfind, getKey, BlogPost.save]
  refine ⟨?_, ?_, rfl, rfl⟩
  · simp [update_item, queryGet, hfind, getKey, BlogPost.save, respMsg]
  · rw [h2]
    have h3 := findById_upsertPost
      { item with title := some name, description := some desc } db
    simpa [hid] using h3

/-- Witness for claim C6: updating the one persisted row. -/
theorem update_preserves_id_created_at_witness :
    (update_item [post0] u0 ⟨some "X", some "Y"⟩ false (.ok ())).1.status = 200 ∧
    findById (update_item [post0] u0 ⟨some "X", some "Y"⟩ false (.ok ())).2.1 u0
      = some { post0 with title := some "X", description := some "Y" } ∧
    ({ post0 with title := some "X", description := some "Y" } : BlogPost).id
      = post0.id ∧
    ({ post0 with title := some "X", description := some "Y" } : BlogPost).created_at
      = post0.created_at :=
  update_preserves_id_created_at [post0] u0 post0 "X" "Y" (by decide)

/-- Claim C10: the description column is nullable in the data model (a
row whose description is none serializes to JSON null), yet create_item
and update_item subscript the body's description key, so a payload that
omits it takes the KeyError path into the except block and returns 500,
leaving the table unchanged. -/
theorem missing_description_returns_500 (newId : Uuid) (now : Nat) (db : DB)
    (name : String) (cr : Except PyErr Unit) (item_id : Uuid) (item : BlogPost)
    (hfind : findById db item_id = some item) :
    (create_item newId now ⟨some name, none⟩ db cr).1 = resp500 ∧
    (create_item newId now ⟨some name, none⟩ db cr).2.1 = db ∧
    (update_item db item_id ⟨some name, none⟩ false cr).1 = resp500 ∧
    (update_item db item_id ⟨some name, none⟩ false cr).2.1 = db ∧
    jsonLookup (BlogPost.to_dict { item with description := none }) "description"
      = some Json.nul := by
  refine ⟨rfl, rfl, ?_, ?_, rfl⟩ <;> simp [update_item, queryGet, hfind, getKey]

/-- Witness for claim C10: concrete bodies missing the description key
against a one-row table. -/
theorem missing_description_returns_500_witness :
    (create_item u0 7 ⟨some "A", none⟩ [post0] (.ok ())).1 = resp500 ∧
    (create_item u0 7 ⟨some "A", none⟩ [post0] (.ok ())).2.1 = [post0] ∧
    (update_item [post0] u0 ⟨some "A", none⟩ false (.ok ())).1 = resp500 ∧
    (update_item [post0] u0 ⟨some "A", none⟩ false (.ok ())).2.1 = [post0] ∧
    jsonLookup (BlogPost.to_dict { post0 with description := none }) "description"
      = some Json.nul :=
  missing_description_returns_500 u0 7 [post0] "A" (.ok ()) u0 post0 (by decide)
